import Mathlib

/-!
Verification development for the shared tooltip state machine of
react-lit-tooltip (src/index.js).

The machine coordinates many tooltip instances through one global state
slot.  We embed the state chart, the `transition`/`send` core, the two
restartable timers (modelled as a queue of scheduled callbacks with
fresh numeric handles, mirroring `window.setTimeout`/`clearTimeout`),
the per-instance event handlers, the subscription bus, and the pure
placement function `positionTooltip`/`getStyles`.

JavaScript mutation subtleties are modelled faithfully:
the enter/leave actions mutate the *current* (pre-commit) context object
in place, while the committed context is the spread copy
`\x7b ...state.context, ...payload \x7d` taken after the leave action and
before the enter action ran; hence an enter action can never influence
the committed context.
-/

namespace ReactLitTooltip

/-- The five modes of the chart (source: `TooltipStates`). -/
inductive TooltipState
  | IDLE
  | FOCUSED
  | VISIBLE
  | LEAVINGVISIBLE
  | DISMISSED
deriving DecidableEq, Repr

/-- The machine event triggers (source: `TooltipEvents`). -/
inductive TooltipEvent
  | BLUR
  | FOCUS
  | GLOBALMOUSEMOVE
  | MOUSEDOWN
  | MOUSEENTER
  | MOUSELEAVE
  | MOUSEMOVE
  | REST
  | SELECTWITHKEYBOARD
  | TIMECOMPLETE
deriving DecidableEq, Repr

/-- Source: `StateContext`, the single field `id` of the global context.
`none` models JavaScript `null`. -/
structure StateContext where
  id : Option String
deriving DecidableEq, Repr

/-- Source: `MachineEvent`: a trigger `type` plus an optional instance id
payload.  `id = none` models an event object without an `id` key. -/
structure MachineEvent where
  type : TooltipEvent
  id : Option String
deriving DecidableEq, Repr

/-- Which of the two timers a scheduled callback belongs to: the rest
timer sends `REST` on fire, the leaving timer sends `TIMECOMPLETE`. -/
inductive TimerKind
  | rest
  | leaving
deriving DecidableEq, Repr

/-- One pending `window.setTimeout` callback: its numeric handle, the
absolute time at which it fires, and which timer armed it. -/
structure ScheduledTimeout where
  handle : Nat
  fireAt : Nat
  kind : TimerKind
deriving DecidableEq, Repr

/-- The whole mutable module state of src/index.js: the global machine
state `\x7bvalue, context\x7d`, the pending-timeout queue of the host
environment together with a fresh-handle counter and the current clock,
and the two module-level handle variables `restTimeout` and
`leavingVisibleTimer`. -/
structure GlobalState where
  value : TooltipState
  context : StateContext
  queue : List ScheduledTimeout
  nextHandle : Nat
  restTimeout : Nat
  leavingVisibleTimer : Nat
  now : Nat
deriving DecidableEq, Repr

/-- Source: `REST_TIMEOUT = 100`. -/
def REST_TIMEOUT : Nat := 100

/-- Source: `LEAVE_TIMEOUT = 500`. -/
def LEAVE_TIMEOUT : Nat := 500

/-- Source: `clearContextId`, which sets `state.context.id = null` on the
current context object. -/
def clearContextId (g : GlobalState) : GlobalState :=
  { g with context := { id := none } }

/-- `window.clearTimeout h`: removes the pending callback with handle `h`
from the host queue (a no-op when no such callback is pending). -/
def clearTimeoutQ (q : List ScheduledTimeout) (h : Nat) : List ScheduledTimeout :=
  q.filter fun s => s.handle != h

/-- Source: `startRestTimer`: `window.clearTimeout(restTimeout)` followed by
`restTimeout = window.setTimeout(.., REST_TIMEOUT)`, scheduling a callback
that will send `REST`. -/
def startRestTimer (g : GlobalState) : GlobalState :=
  { g with
    queue := clearTimeoutQ g.queue g.restTimeout ++
      [{ handle := g.nextHandle, fireAt := g.now + REST_TIMEOUT, kind := TimerKind.rest }]
    restTimeout := g.nextHandle
    nextHandle := g.nextHandle + 1 }

/-- Source: `clearRestTimer`: `window.clearTimeout(restTimeout)`. -/
def clearRestTimer (g : GlobalState) : GlobalState :=
  { g with queue := clearTimeoutQ g.queue g.restTimeout }

/-- Source: `startLeavingVisibleTimer`: clear then re-arm the leaving timer
for `LEAVE_TIMEOUT`, scheduling a callback that will send `TIMECOMPLETE`. -/
def startLeavingVisibleTimer (g : GlobalState) : GlobalState :=
  { g with
    queue := clearTimeoutQ g.queue g.leavingVisibleTimer ++
      [{ handle := g.nextHandle, fireAt := g.now + LEAVE_TIMEOUT, kind := TimerKind.leaving }]
    leavingVisibleTimer := g.nextHandle
    nextHandle := g.nextHandle + 1 }

/-- Source: `clearLeavingVisibleTimer`. -/
def clearLeavingVisibleTimer (g : GlobalState) : GlobalState :=
  { g with queue := clearTimeoutQ g.queue g.leavingVisibleTimer }

/-- The transition table `chart.states[mode].on[trigger]` of the source,
row by row. -/
def chartOn : TooltipState → TooltipEvent → Option TooltipState
  | TooltipState.IDLE, TooltipEvent.MOUSEENTER => some TooltipState.FOCUSED
  | TooltipState.IDLE, TooltipEvent.FOCUS => some TooltipState.VISIBLE
  | TooltipState.FOCUSED, TooltipEvent.MOUSEMOVE => some TooltipState.FOCUSED
  | TooltipState.FOCUSED, TooltipEvent.MOUSELEAVE => some TooltipState.IDLE
  | TooltipState.FOCUSED, TooltipEvent.MOUSEDOWN => some TooltipState.DISMISSED
  | TooltipState.FOCUSED, TooltipEvent.BLUR => some TooltipState.IDLE
  | TooltipState.FOCUSED, TooltipEvent.REST => some TooltipState.VISIBLE
  | TooltipState.VISIBLE, TooltipEvent.FOCUS => some TooltipState.FOCUSED
  | TooltipState.VISIBLE, TooltipEvent.MOUSEENTER => some TooltipState.FOCUSED
  | TooltipState.VISIBLE, TooltipEvent.MOUSELEAVE => some TooltipState.LEAVINGVISIBLE
  | TooltipState.VISIBLE, TooltipEvent.BLUR => some TooltipState.LEAVINGVISIBLE
  | TooltipState.VISIBLE, TooltipEvent.MOUSEDOWN => some TooltipState.DISMISSED
  | TooltipState.VISIBLE, TooltipEvent.SELECTWITHKEYBOARD => some TooltipState.DISMISSED
  | TooltipState.VISIBLE, TooltipEvent.GLOBALMOUSEMOVE => some TooltipState.LEAVINGVISIBLE
  | TooltipState.LEAVINGVISIBLE, TooltipEvent.MOUSEENTER => some TooltipState.VISIBLE
  | TooltipState.LEAVINGVISIBLE, TooltipEvent.FOCUS => some TooltipState.VISIBLE
  | TooltipState.LEAVINGVISIBLE, TooltipEvent.TIMECOMPLETE => some TooltipState.IDLE
  | TooltipState.DISMISSED, TooltipEvent.MOUSELEAVE => some TooltipState.IDLE
  | TooltipState.DISMISSED, TooltipEvent.BLUR => some TooltipState.IDLE
  | _, _ => none

/-- Whether `chart.states[mode]` declares a `leave` action (FOCUSED,
LEAVING_VISIBLE and DISMISSED do). -/
def hasLeave : TooltipState → Bool
  | TooltipState.FOCUSED => true
  | TooltipState.LEAVINGVISIBLE => true
  | TooltipState.DISMISSED => true
  | _ => false

/-- Whether `chart.states[mode]` declares an `enter` action (IDLE,
FOCUSED and LEAVING_VISIBLE do; VISIBLE and DISMISSED do not). -/
def hasEnter : TooltipState → Bool
  | TooltipState.IDLE => true
  | TooltipState.FOCUSED => true
  | TooltipState.LEAVINGVISIBLE => true
  | _ => false

/-- The `leave` action of each mode, applied to the global module state:
FOCUSED.leave is `clearRestTimer`, LEAVING_VISIBLE.leave is
`clearLeavingVisibleTimer` then `clearContextId`, DISMISSED.leave is
`clearContextId`. -/
def runLeave : TooltipState → GlobalState → GlobalState
  | TooltipState.FOCUSED, g => clearRestTimer g
  | TooltipState.LEAVINGVISIBLE, g => clearContextId (clearLeavingVisibleTimer g)
  | TooltipState.DISMISSED, g => clearContextId g
  | _, g => g

/-- The `enter` action of each mode: IDLE.enter is `clearContextId`,
FOCUSED.enter is `startRestTimer`, LEAVING_VISIBLE.enter is
`startLeavingVisibleTimer`. -/
def runEnter : TooltipState → GlobalState → GlobalState
  | TooltipState.IDLE, g => clearContextId g
  | TooltipState.FOCUSED, g => startRestTimer g
  | TooltipState.LEAVINGVISIBLE, g => startLeavingVisibleTimer g
  | _, g => g

/-- The spread merge `\x7b ...state.context, ...payload \x7d` where
`payload` is the event without its `type` key: when the event carries an
`id` it overrides the context's only field, otherwise the context value is
kept unchanged. -/
def mergeContext (ctx : StateContext) (event : MachineEvent) : StateContext :=
  match event.id with
  | some i => { id := some i }
  | none => ctx

/-- One observable invocation of an enter or leave action, recording the
mode owning the action, the value of the context object at call time, and
the event argument. -/
inductive EffectCall
  | leaveCall (mode : TooltipState) (ctx : StateContext) (event : MachineEvent)
  | enterCall (mode : TooltipState) (ctx : StateContext) (event : MachineEvent)
deriving DecidableEq, Repr

/-- The value returned by `transition`: the resulting module state, the
`changed` flag, and the ordered trace of enter/leave actions invoked. -/
structure TransitionResult where
  g : GlobalState
  changed : Bool
  trace : List EffectCall
deriving DecidableEq, Repr

/-- Source: `transition(currentState, event)`.  Looks up
`chart.states[value].on[event.type]`; on a miss returns the state
unchanged with `changed: false` and runs no action.  On a hit it invokes
the current mode's `leave` action (observing the pre-transition context),
computes the merged context from the post-leave context object and the
payload, invokes the target mode's `enter` action (observing the
post-leave context object — an enter action's own mutation of that object
is discarded by the commit), and returns the target mode with the merged
context and `changed: true`. -/
def transition (g : GlobalState) (event : MachineEvent) : TransitionResult :=
  match chartOn g.value event.type with
  | none => { g := g, changed := false, trace := [] }
  | some nextStateValue =>
    let leaveTrace := if hasLeave g.value then
      [EffectCall.leaveCall g.value g.context event] else []
    let g1 := runLeave g.value g
    let merged := mergeContext g1.context event
    let enterTrace := if hasEnter nextStateValue then
      [EffectCall.enterCall nextStateValue g1.context event] else []
    let g2 := runEnter nextStateValue g1
    { g := { g2 with value := nextStateValue, context := merged },
      changed := true,
      trace := leaveTrace ++ enterTrace }

/-- Source: `send(event)`: run `transition` against the global state and,
only when it reports `changed`, commit the new state and notify the
subscribers.  The returned boolean records whether a notification
happened. -/
def send (g : GlobalState) (event : MachineEvent) : GlobalState × Bool :=
  let r := transition g event
  if r.changed then (r.g, true) else (g, false)

/-- The initial module state: `state = \x7bvalue: chart.initial, context:
\x7bid: null\x7d\x7d`, an empty timeout queue, and no handle ever
allocated (handles start at 1; the two handle variables start at the
never-allocated value 0, so that clearing them is a no-op exactly like
`clearTimeout(undefined)`). -/
def initialState : GlobalState :=
  { value := TooltipState.IDLE
    context := { id := none }
    queue := []
    nextHandle := 1
    restTimeout := 0
    leavingVisibleTimer := 0
    now := 0 }

/-- Source: `isTooltipVisible(id, initial)`: the context id matches and the
mode is VISIBLE (when `initial` is set) or VISIBLE/LEAVING_VISIBLE
otherwise. -/
def isTooltipVisible (g : GlobalState) (id : String) (initial : Bool) : Bool :=
  g.context.id == some id &&
    (if initial then g.value == TooltipState.VISIBLE
     else g.value == TooltipState.VISIBLE || g.value == TooltipState.LEAVINGVISIBLE)

/-- Source: `handleMouseEnter`: sends MOUSE_ENTER with this instance's id. -/
def handleMouseEnter (g : GlobalState) (id : String) : GlobalState :=
  (send g { type := TooltipEvent.MOUSEENTER, id := some id }).1

/-- Source: `handleMouseMove`: sends MOUSE_MOVE with this instance's id. -/
def handleMouseMove (g : GlobalState) (id : String) : GlobalState :=
  (send g { type := TooltipEvent.MOUSEMOVE, id := some id }).1

/-- Source: `handleMouseLeave`: sends MOUSE_LEAVE with no id and no guard,
whatever instance the input arrived on. -/
def handleMouseLeave (g : GlobalState) (id : String) : GlobalState :=
  (send g { type := TooltipEvent.MOUSELEAVE, id := none }).1

/-- Source: `handleMouseDown`: sends MOUSE_DOWN only when the global
context id already equals this instance's id. -/
def handleMouseDown (g : GlobalState) (id : String) : GlobalState :=
  if g.context.id == some id then
    (send g { type := TooltipEvent.MOUSEDOWN, id := none }).1
  else g

/-- Source: `handleFocus`: sends FOCUS with this instance's id. -/
def handleFocus (g : GlobalState) (id : String) : GlobalState :=
  (send g { type := TooltipEvent.FOCUS, id := some id }).1

/-- Source: `handleBlur`: sends BLUR only when the global context id
already equals this instance's id. -/
def handleBlur (g : GlobalState) (id : String) : GlobalState :=
  if g.context.id == some id then
    (send g { type := TooltipEvent.BLUR, id := none }).1
  else g

/-- Source: `handleKeyDown`: Enter or Space sends SELECT_WITH_KEYBOARD. -/
def handleKeyDown (g : GlobalState) (key : String) : GlobalState :=
  if key == "Enter" || key == " " then
    (send g { type := TooltipEvent.SELECTWITHKEYBOARD, id := none }).1
  else g

/-- The document-level Escape listener: sends SELECT_WITH_KEYBOARD only
while the mode is VISIBLE. -/
def handleEscapeKey (g : GlobalState) : GlobalState :=
  if g.value == TooltipState.VISIBLE then
    (send g { type := TooltipEvent.SELECTWITHKEYBOARD, id := none }).1
  else g

/-- The document-level mousemove listener of the disabled-trigger
workaround: sends GLOBAL_MOUSE_MOVE (with no id). -/
def handleGlobalMouseMove (g : GlobalState) : GlobalState :=
  (send g { type := TooltipEvent.GLOBALMOUSEMOVE, id := none }).1

/-- The event a timer callback sends when it fires. -/
def timerEvent : TimerKind → MachineEvent
  | TimerKind.rest => { type := TooltipEvent.REST, id := none }
  | TimerKind.leaving => { type := TooltipEvent.TIMECOMPLETE, id := none }

/-- The host firing a due scheduled callback: the entry is removed from
the queue and the callback body runs, sending the timer's event. -/
def fireTimer (g : GlobalState) (s : ScheduledTimeout) : GlobalState :=
  (send { g with queue := g.queue.erase s } (timerEvent s.kind)).1

/-- One atomic step of the whole single-threaded system: a handler called
with some instance id or key, time passing, or a due timer firing. -/
inductive Step : GlobalState → GlobalState → Prop
  | mouseEnter (g : GlobalState) (i : String) : Step g (handleMouseEnter g i)
  | mouseMove (g : GlobalState) (i : String) : Step g (handleMouseMove g i)
  | mouseLeave (g : GlobalState) (i : String) : Step g (handleMouseLeave g i)
  | mouseDown (g : GlobalState) (i : String) : Step g (handleMouseDown g i)
  | focus (g : GlobalState) (i : String) : Step g (handleFocus g i)
  | blur (g : GlobalState) (i : String) : Step g (handleBlur g i)
  | keyDown (g : GlobalState) (k : String) : Step g (handleKeyDown g k)
  | escapeKey (g : GlobalState) : Step g (handleEscapeKey g)
  | globalMouseMove (g : GlobalState) : Step g (handleGlobalMouseMove g)
  | tick (g : GlobalState) (d : Nat) : Step g { g with now := g.now + d }
  | fire (g : GlobalState) (s : ScheduledTimeout) (hs : s ∈ g.queue)
      (hdue : s.fireAt ≤ g.now) : Step g (fireTimer g s)

/-- A module state reachable from the initial one by system steps. -/
def Reachable (g : GlobalState) : Prop :=
  Relation.ReflTransGen Step initialState g

/-- The timer-discipline invariant: every queue handle was allocated,
every pending rest callback carries the current `restTimeout` handle,
every pending leaving callback carries the current `leavingVisibleTimer`
handle, and each of the two timers has at most one pending callback. -/
def TimerInv (g : GlobalState) : Prop :=
  (∀ s ∈ g.queue, s.handle < g.nextHandle) ∧
  (∀ s ∈ g.queue, s.kind = TimerKind.rest → s.handle = g.restTimeout) ∧
  (∀ s ∈ g.queue, s.kind = TimerKind.leaving → s.handle = g.leavingVisibleTimer) ∧
  (g.queue.filter fun s => s.kind == TimerKind.rest).length ≤ 1 ∧
  (g.queue.filter fun s => s.kind == TimerKind.leaving).length ≤ 1

/-- What a subscriber callback does to the subscription list when it is
called during a notification pass (the behaviours relevant to the
iteration discipline of `notify`). -/
inductive SubAction
  | idle
  | removeSelf
  | removeSub (j : Nat)
  | addSub (j : Nat)
deriving DecidableEq, Repr

/-- A registered subscriber: its identity (standing in for the function
object's identity) and its behaviour when called. -/
structure Subscriber where
  sid : Nat
  action : SubAction
deriving DecidableEq, Repr

/-- Source: `subscribe(fn)`: `subscriptions.push(fn)` appends at the end. -/
def subscribe (subs : List Subscriber) (s : Subscriber) : List Subscriber :=
  subs ++ [s]

/-- Source: the clean-up closure returned by `subscribe`:
`subscriptions.splice(subscriptions.indexOf(fn), 1)`.  When `fn` is
present the first occurrence is removed; when it is absent, `indexOf`
yields -1 and `splice(-1, 1)` removes the LAST element of the array. -/
def unsubscribe (subs : List Subscriber) (j : Nat) : List Subscriber :=
  match subs.findIdx? (fun s => s.sid == j) with
  | some k => subs.eraseIdx k
  | none => subs.eraseIdx (subs.length - 1)

/-- Apply one subscriber's behaviour to the live subscription list. -/
def applyAction (subs : List Subscriber) (self : Nat) : SubAction → List Subscriber
  | SubAction.idle => subs
  | SubAction.removeSelf => unsubscribe subs self
  | SubAction.removeSub j => unsubscribe subs j
  | SubAction.addSub j => subscribe subs { sid := j, action := SubAction.idle }

/-- The loop of `Array.prototype.forEach` as used by `notify`: the length
is captured once before the first callback; at each index `k` below that
length the element is read from the LIVE array if the index still exists,
the callback runs (possibly mutating the array), and the cursor advances.
`remaining` counts the indices still to visit; the second component
accumulates the identities of the subscribers actually called, in call
order. -/
def notifyGo : Nat → Nat → List Subscriber → List Nat → List Subscriber × List Nat
  | 0, _, subs, called => (subs, called)
  | remaining + 1, k, subs, called =>
    match subs.get? k with
    | some s => notifyGo remaining (k + 1) (applyAction subs s.sid s.action) (called ++ [s.sid])
    | none => notifyGo remaining (k + 1) subs called

/-- Source: `notify()`: `subscriptions.forEach(fn => fn(state))` over the
live module-level array.  Returns the final subscription list and the
identities called, in order. -/
def notifyPass (subs : List Subscriber) : List Subscriber × List Nat :=
  notifyGo subs.length 0 subs []

/-- A measured bounding rectangle, as delivered by the rect observer. -/
structure Rect where
  width : Int
  height : Int
  top : Int
  left : Int
  right : Int
  bottom : Int
deriving DecidableEq, Repr

/-- The browser environment read by `positionTooltip`:
`getDocumentDimensions()` and `window.pageXOffset`/`pageYOffset`. -/
structure Env where
  windowWidth : Int
  windowHeight : Int
  pageXOffset : Int
  pageYOffset : Int
deriving DecidableEq, Repr

/-- The style object produced by the placement layer: optional `left` and
`top` pixel coordinates and whether `visibility: hidden` is set. -/
structure PosStyle where
  left : Option Int
  top : Option Int
  visibilityHidden : Bool
deriving DecidableEq, Repr

/-- The empty style object returned by `positionTooltip` when a rectangle
is missing. -/
def emptyStyle : PosStyle :=
  { left := none, top := none, visibilityHidden := false }

/-- The `visibility: hidden` style object returned by `getStyles` before
the popup has been measured. -/
def hiddenStyle : PosStyle :=
  { left := none, top := none, visibilityHidden := true }

/-- Source: `positionTooltip(triggerRect, tooltipRect, offset = 8)`.
Reads the document dimensions, returns the empty object when either
rectangle is absent, detects the four edge collisions, flips horizontally
on a right collision without a left collision and vertically on a bottom
collision without a top collision, and adds the scroll offsets. -/
def positionTooltip (env : Env) (triggerRect tooltipRect : Option Rect)
    (offset : Int) : PosStyle :=
  match triggerRect, tooltipRect with
  | some tr, some tt =>
    let collisionTop := decide (tr.top - tt.height < 0)
    let collisionRight := decide (env.windowWidth < tr.left + tt.width)
    let collisionBottom := decide (env.windowHeight < tr.bottom + tt.height + offset)
    let collisionLeft := decide (tr.left - tt.width < 0)
    let directionRight := collisionRight && !collisionLeft
    let directionUp := collisionBottom && !collisionTop
    { left := some (if directionRight
        then tr.right - tt.width + env.pageXOffset
        else tr.left + env.pageXOffset)
      top := some (if directionUp
        then tr.top - offset - tt.height + env.pageYOffset
        else tr.top + offset + tr.height + env.pageYOffset)
      visibilityHidden := false }
  | _, _ => emptyStyle

/-- Source: `getStyles(position, triggerRect, tooltipRect)`: when the
popup rectangle has not been measured yet it returns only
`visibility: hidden` and does not call `position` at all; otherwise it
returns whatever `position` computes. -/
def getStyles (position : Option Rect → Option Rect → PosStyle)
    (triggerRect tooltipRect : Option Rect) : PosStyle :=
  match tooltipRect with
  | none => hiddenStyle
  | some _ => position triggerRect tooltipRect

/-- The module state after the single input MouseEnter from instance "a"
on the fresh page: Focused with the rest timer armed. -/
def exampleFocusedState : GlobalState := handleMouseEnter initialState "a"

/-- A module state in mode LEAVING_VISIBLE with instance "a" active and
the leaving timer pending under handle 2. -/
def exampleLeavingState : GlobalState :=
  { value := TooltipState.LEAVINGVISIBLE
    context := { id := some "a" }
    queue := [{ handle := 2, fireAt := 600, kind := TimerKind.leaving }]
    nextHandle := 3
    restTimeout := 1
    leavingVisibleTimer := 2
    now := 100 }

/-- A module state in mode VISIBLE with instance "a" active and no
pending timeouts. -/
def exampleVisibleState : GlobalState :=
  { value := TooltipState.VISIBLE
    context := { id := some "a" }
    queue := []
    nextHandle := 3
    restTimeout := 1
    leavingVisibleTimer := 2
    now := 50 }

theorem timerInv_sublist (g : GlobalState) (q' : List ScheduledTimeout)
    (hsub : List.Sublist q' g.queue) (h : TimerInv g) : TimerInv { g with queue := q' } := by
  obtain ⟨h1, h2, h3, h4, h5⟩ := h
  refine ⟨?_, ?_, ?_, ?_, ?_⟩
  · intro s hs; exact h1 s (hsub.subset hs)
  · intro s hs; exact h2 s (hsub.subset hs)
  · intro s hs; exact h3 s (hsub.subset hs)
  · exact le_trans (hsub.filter _).length_le h4
  · exact le_trans (hsub.filter _).length_le h5

theorem timerInv_clearContextId (g : GlobalState) (h : TimerInv g) :
    TimerInv (clearContextId g) := by
  simpa [clearContextId, TimerInv] using h

theorem timerInv_commit (g : GlobalState) (v : TooltipState) (c : StateContext)
    (h : TimerInv g) : TimerInv { g with value := v, context := c } := by
  simpa [TimerInv] using h

theorem timerInv_clearRestTimer (g : GlobalState) (h : TimerInv g) :
    TimerInv (clearRestTimer g) :=
  timerInv_sublist g _ (List.filter_sublist g.queue) h

theorem timerInv_clearLeavingVisibleTimer (g : GlobalState) (h : TimerInv g) :
    TimerInv (clearLeavingVisibleTimer g) :=
  timerInv_sublist g _ (List.filter_sublist g.queue) h

theorem clearTimeoutQ_rest_nil (g : GlobalState)
    (h2 : ∀ s ∈ g.queue, s.kind = TimerKind.rest → s.handle = g.restTimeout) :
    ((clearTimeoutQ g.queue g.restTimeout).filter fun s => s.kind == TimerKind.rest) = [] := by
  rw [List.filter_eq_nil_iff]
  intro s hs hkind
  have hmem := List.mem_filter.mp hs
  have hrt := h2 s hmem.1 (by simpa using hkind)
  have hne : (s.handle != g.restTimeout) = true := hmem.2
  simp [hrt] at hne

theorem clearTimeoutQ_leaving_nil (g : GlobalState)
    (h3 : ∀ s ∈ g.queue, s.kind = TimerKind.leaving → s.handle = g.leavingVisibleTimer) :
    ((clearTimeoutQ g.queue g.leavingVisibleTimer).filter
      fun s => s.kind == TimerKind.leaving) = [] := by
  rw [List.filter_eq_nil_iff]
  intro s hs hkind
  have hmem := List.mem_filter.mp hs
  have hlt := h3 s hmem.1 (by simpa using hkind)
  have hne : (s.handle != g.leavingVisibleTimer) = true := hmem.2
  simp [hlt] at hne

theorem timerInv_startRestTimer (g : GlobalState) (h : TimerInv g) :
    TimerInv (startRestTimer g) := by
  obtain ⟨h1, h2, h3, h4, h5⟩ := h
  have hq : (startRestTimer g).queue = clearTimeoutQ g.queue g.restTimeout ++
      [⟨g.nextHandle, g.now + REST_TIMEOUT, TimerKind.rest⟩] := rfl
  have hrt : (startRestTimer g).restTimeout = g.nextHandle := rfl
  have hnh : (startRestTimer g).nextHandle = g.nextHandle + 1 := rfl
  have hlt : (startRestTimer g).leavingVisibleTimer = g.leavingVisibleTimer := rfl
  refine ⟨?_, ?_, ?_, ?_, ?_⟩
  · intro s hs
    rw [hq] at hs
    rw [hnh]
    rcases List.mem_append.mp hs with hl | hr
    · exact lt_trans (h1 s (List.mem_filter.mp hl).1) (Nat.lt_succ_self _)
    · simp only [List.mem_singleton] at hr
      subst hr
      exact Nat.lt_succ_self _
  · intro s hs hkind
    rw [hq] at hs
    rw [hrt]
    rcases List.mem_append.mp hs with hl | hr
    · exfalso
      have hmem := List.mem_filter.mp hl
      have hh := h2 s hmem.1 hkind
      have hne : (s.handle != g.restTimeout) = true := hmem.2
      simp [hh] at hne
    · simp only [List.mem_singleton] at hr
      subst hr
      rfl
  · intro s hs hkind
    rw [hq] at hs
    rw [hlt]
    rcases List.mem_append.mp hs with hl | hr
    · exact h3 s (List.mem_filter.mp hl).1 hkind
    · simp only [List.mem_singleton] at hr
      subst hr
      simp at hkind
  · rw [hq, List.filter_append, clearTimeoutQ_rest_nil g h2]
    simp
  · rw [hq, List.filter_append]
    have hone : (List.filter (fun s => s.kind == TimerKind.leaving)
        [(⟨g.nextHandle, g.now + REST_TIMEOUT, TimerKind.rest⟩ : ScheduledTimeout)]) = [] := rfl
    rw [hone, List.append_nil]
    exact le_trans ((List.filter_sublist g.queue).filter _).length_le h5

theorem timerInv_startLeavingVisibleTimer (g : GlobalState) (h : TimerInv g) :
    TimerInv (startLeavingVisibleTimer g) := by
  obtain ⟨h1, h2, h3, h4, h5⟩ := h
  have hq : (startLeavingVisibleTimer g).queue = clearTimeoutQ g.queue g.leavingVisibleTimer ++
      [⟨g.nextHandle, g.now + LEAVE_TIMEOUT, TimerKind.leaving⟩] := rfl
  have hrt : (startLeavingVisibleTimer g).restTimeout = g.restTimeout := rfl
  have hnh : (startLeavingVisibleTimer g).nextHandle = g.nextHandle + 1 := rfl
  have hlt : (startLeavingVisibleTimer g).leavingVisibleTimer = g.nextHandle := rfl
  refine ⟨?_, ?_, ?_, ?_, ?_⟩
  · intro s hs
    rw [hq] at hs
    rw [hnh]
    rcases List.mem_append.mp hs with hl | hr
    · exact lt_trans (h1 s (List.mem_filter.mp hl).1) (Nat.lt_succ_self _)
    · simp only [List.mem_singleton] at hr
      subst hr
      exact Nat.lt_succ_self _
  · intro s hs hkind
    rw [hq] at hs
    rw [hrt]
    rcases List.mem_append.mp hs with hl | hr
    · exact h2 s (List.mem_filter.mp hl).1 hkind
    · simp only [List.mem_singleton] at hr
      subst hr
      simp at hkind
  · intro s hs hkind
    rw [hq] at hs
    rw [hlt]
    rcases List.mem_append.mp hs with hl | hr
    · exfalso
      have hmem := List.mem_filter.mp hl
      have hh := h3 s hmem.1 hkind
      have hne : (s.handle != g.leavingVisibleTimer) = true := hmem.2
      simp [hh] at hne
    · simp only [List.mem_singleton] at hr
      subst hr
      rfl
  · rw [hq, List.filter_append]
    have hone : (List.filter (fun s => s.kind == TimerKind.rest)
        [(⟨g.nextHandle, g.now + LEAVE_TIMEOUT, TimerKind.leaving⟩ : ScheduledTimeout)]) = [] := rfl
    rw [hone, List.append_nil]
    exact le_trans ((List.filter_sublist g.queue).filter _).length_le h4
  · rw [hq, List.filter_append, clearTimeoutQ_leaving_nil g h3]
    simp

theorem timerInv_runLeave (v : TooltipState) (g : GlobalState) (h : TimerInv g) :
    TimerInv (runLeave v g) := by
  cases v with
  | FOCUSED => exact timerInv_clearRestTimer g h
  | LEAVINGVISIBLE =>
    exact timerInv_clearContextId _ (timerInv_clearLeavingVisibleTimer g h)
  | DISMISSED => exact timerInv_clearContextId g h
  | IDLE => exact h
  | VISIBLE => exact h

theorem timerInv_runEnter (v : TooltipState) (g : GlobalState) (h : TimerInv g) :
    TimerInv (runEnter v g) := by
  cases v with
  | IDLE => exact timerInv_clearContextId g h
  | FOCUSED => exact timerInv_startRestTimer g h
  | LEAVINGVISIBLE => exact timerInv_startLeavingVisibleTimer g h
  | VISIBLE => exact h
  | DISMISSED => exact h

theorem timerInv_transition (g : GlobalState) (e : MachineEvent) (h : TimerInv g) :
    TimerInv (transition g e).g := by
  unfold transition
  cases hc : chartOn g.value e.type with
  | none => simpa using h
  | some t =>
    simp only
    exact timerInv_commit _ _ _ (timerInv_runEnter t _ (timerInv_runLeave g.value g h))

theorem timerInv_send (g : GlobalState) (e : MachineEvent) (h : TimerInv g) :
    TimerInv (send g e).1 := by
  unfold send
  by_cases hch : (transition g e).changed
  · simp only [hch, if_true]
    exact timerInv_transition g e h
  · simp only [hch, if_false]
    exact h

theorem timerInv_step (g g' : GlobalState) (hstep : Step g g') (h : TimerInv g) :
    TimerInv g' := by
  cases hstep with
  | mouseEnter i => exact timerInv_send g _ h
  | mouseMove i => exact timerInv_send g _ h
  | mouseLeave i => exact timerInv_send g _ h
  | mouseDown i =>
    unfold handleMouseDown
    split
    · exact timerInv_send g _ h
    · exact h
  | focus i => exact timerInv_send g _ h
  | blur i =>
    unfold handleBlur
    split
    · exact timerInv_send g _ h
    · exact h
  | keyDown k =>
    unfold handleKeyDown
    split
    · exact timerInv_send g _ h
    · exact h
  | escapeKey =>
    unfold handleEscapeKey
    split
    · exact timerInv_send g _ h
    · exact h
  | globalMouseMove => exact timerInv_send g _ h
  | tick d => simpa [TimerInv] using h
  | fire s hs hdue =>
    exact timerInv_send _ _ (timerInv_sublist g _ (List.erase_sublist s g.queue) h)

theorem timerInv_initial : TimerInv initialState := by
  simp [TimerInv, initialState]

theorem timerInv_reachable (g : GlobalState) (h : Reachable g) : TimerInv g := by
  induction h with
  | refl => exact timerInv_initial
  | tail hsteps hstep ih => exact timerInv_step _ _ hstep ih

theorem notifyGo_no_mutation (remaining : Nat) :
    ∀ (k : Nat) (subs : List Subscriber) (called : List Nat),
      remaining + k = subs.length →
      (∀ s ∈ subs, s.action = SubAction.idle) →
      notifyGo remaining k subs called =
        (subs, called ++ (subs.drop k).map Subscriber.sid) := by
  induction remaining with
  | zero =>
    intro k subs called hlen hall
    have hk : k = subs.length := by omega
    subst hk
    simp [notifyGo, List.drop_length]
  | succ r ih =>
    intro k subs called hlen hall
    have hk : k < subs.length := by omega
    have hget : subs.get? k = some subs[k] := by
      rw [List.get?_eq_get hk, List.get_eq_getElem]
    have hact : subs[k].action = SubAction.idle := hall _ (subs.getElem_mem hk)
    have happ : applyAction subs subs[k].sid subs[k].action = subs := by
      rw [hact]
      rfl
    have hdrop : subs.drop k = subs[k] :: subs.drop (k + 1) :=
      List.drop_eq_getElem_cons hk
    simp only [notifyGo, hget, happ]
    rw [ih (k + 1) subs (called ++ [subs[k].sid]) (by omega) hall]
    rw [hdrop, List.map_cons]
    simp

/-- Claim C1, counterexample: the Idle-with-null-activeId invariant fails
on the code.  From the initial state, MouseEnter from instance "a"
followed by a MouseLeave reaches mode IDLE with activeId still "a":
Idle's enter action `clearContextId` mutates the superseded context
object after the merged copy has been taken, so the commit keeps the old
id. -/
theorem reachable_idle_with_stale_id :
    Reachable (handleMouseLeave exampleFocusedState "a") ∧
    (handleMouseLeave exampleFocusedState "a").value = TooltipState.IDLE ∧
    (handleMouseLeave exampleFocusedState "a").context.id = some "a" := by
  refine ⟨?_, by decide, by decide⟩
  exact Relation.ReflTransGen.tail
    (Relation.ReflTransGen.single (Step.mouseEnter initialState "a"))
    (Step.mouseLeave exampleFocusedState "a")

/-- Claim C1 (amended): transitions into Idle from LeavingVisible (on
TimeComplete) or from Dismissed (on MouseLeave/Blur) commit activeId =
null, via those modes' leave actions which clear the context before the
merge; transitions into Idle from Focused (on MouseLeave/Blur) preserve
the pre-transition activeId, because Idle's enter action only mutates the
superseded context object; and a mapped id-less event clears activeId at
no other point. -/
theorem idle_entry_activeId :
    (∀ (g : GlobalState) (ev : TooltipEvent), g.value = TooltipState.FOCUSED →
      (ev = TooltipEvent.MOUSELEAVE ∨ ev = TooltipEvent.BLUR) →
      (transition g { type := ev, id := none }).g.value = TooltipState.IDLE ∧
      (transition g { type := ev, id := none }).g.context.id = g.context.id) ∧
    (∀ g : GlobalState, g.value = TooltipState.LEAVINGVISIBLE →
      (transition g { type := TooltipEvent.TIMECOMPLETE, id := none }).g.value
        = TooltipState.IDLE ∧
      (transition g { type := TooltipEvent.TIMECOMPLETE, id := none }).g.context.id = none) ∧
    (∀ (g : GlobalState) (ev : TooltipEvent), g.value = TooltipState.DISMISSED →
      (ev = TooltipEvent.MOUSELEAVE ∨ ev = TooltipEvent.BLUR) →
      (transition g { type := ev, id := none }).g.value = TooltipState.IDLE ∧
      (transition g { type := ev, id := none }).g.context.id = none) ∧
    (∀ (g : GlobalState) (e : MachineEvent) (t : TooltipState), e.id = none →
      chartOn g.value e.type = some t →
      g.value ≠ TooltipState.LEAVINGVISIBLE → g.value ≠ TooltipState.DISMISSED →
      (transition g e).g.context.id = g.context.id) := by
  refine ⟨?_, ?_, ?_, ?_⟩
  · intro g ev hv hev
    rcases hev with rfl | rfl <;>
      simp [transition, chartOn, hv, runLeave, runEnter, mergeContext,
        clearRestTimer, clearContextId]
  · intro g hv
    simp [transition, chartOn, hv, runLeave, runEnter, mergeContext,
      clearLeavingVisibleTimer, clearContextId]
  · intro g ev hv hev
    rcases hev with rfl | rfl <;>
      simp [transition, chartOn, hv, runLeave, runEnter, mergeContext, clearContextId]
  · intro g e t he hc hnlv hnd
    unfold transition
    rw [hc]
    simp only [mergeContext, he]
    cases hv : g.value <;>
      simp_all [runLeave, runEnter, clearRestTimer, clearContextId,
        clearLeavingVisibleTimer]

/-- Claim C1 (amended) witness: at the concrete Focused state with
activeId "a", a MouseLeave transitions to IDLE and keeps activeId "a". -/
theorem idle_entry_activeId_witness :
    exampleFocusedState.value = TooltipState.FOCUSED ∧
    (transition exampleFocusedState
      { type := TooltipEvent.MOUSELEAVE, id := none }).g.value = TooltipState.IDLE ∧
    (transition exampleFocusedState
      { type := TooltipEvent.MOUSELEAVE, id := none }).g.context.id
      = exampleFocusedState.context.id :=
  ⟨by decide,
   (idle_entry_activeId.1 exampleFocusedState TooltipEvent.MOUSELEAVE
      (by decide) (Or.inl rfl)).1,
   (idle_entry_activeId.1 exampleFocusedState TooltipEvent.MOUSELEAVE
      (by decide) (Or.inl rfl)).2⟩

/-- Claim C2, counterexample: the enter action is NOT always invoked with
the pre-transition context.  In LEAVING_VISIBLE with activeId "a", a
TimeComplete first runs the leave action, which clears the context id in
place; the target's enter action (Idle's `clearContextId`) then observes
the already-cleared context, not the pre-transition one. -/
theorem enter_not_pre_transition_context :
    (transition exampleLeavingState
      { type := TooltipEvent.TIMECOMPLETE, id := none }).trace =
      [EffectCall.leaveCall TooltipState.LEAVINGVISIBLE { id := some "a" }
        { type := TooltipEvent.TIMECOMPLETE, id := none },
       EffectCall.enterCall TooltipState.IDLE { id := none }
        { type := TooltipEvent.TIMECOMPLETE, id := none }] ∧
    ({ id := none } : StateContext) ≠ exampleLeavingState.context := by
  refine ⟨by decide, by decide⟩

/-- Claim C2 (amended): for every mapped event, `send` first invokes the
exited mode's leave action with the pre-transition context, then merges
the payload into the (post-leave) context, then invokes the target mode's
enter action with the post-leave context — equal to the pre-transition
context except that leaving LEAVING_VISIBLE or DISMISSED has cleared
activeId — never with the merged context, and finally the result
committed is the target mode with the merged context. -/
theorem transition_effect_order :
    ∀ (g : GlobalState) (e : MachineEvent) (t : TooltipState),
      chartOn g.value e.type = some t →
      (transition g e).trace =
        (if hasLeave g.value then [EffectCall.leaveCall g.value g.context e] else []) ++
        (if hasEnter t then [EffectCall.enterCall t (runLeave g.value g).context e] else []) ∧
      (runLeave g.value g).context =
        (if g.value = TooltipState.LEAVINGVISIBLE ∨ g.value = TooltipState.DISMISSED
         then { id := none } else g.context) ∧
      (transition g e).changed = true ∧
      (transition g e).g.value = t ∧
      (transition g e).g.context = mergeContext (runLeave g.value g).context e := by
  intro g e t hc
  have hctx : (runLeave g.value g).context =
      (if g.value = TooltipState.LEAVINGVISIBLE ∨ g.value = TooltipState.DISMISSED
       then { id := none } else g.context) := by
    cases hv : g.value <;>
      simp [runLeave, clearRestTimer, clearContextId, clearLeavingVisibleTimer]
  unfold transition
  rw [hc]
  exact ⟨rfl, hctx, rfl, rfl, rfl⟩

/-- Claim C2 (amended) witness: at the concrete LEAVING_VISIBLE state, a
TimeComplete produces the trace leave-then-enter with the enter action
observing the leave-cleared context, and commits IDLE with the merged
(id-less, hence cleared) context. -/
theorem transition_effect_order_witness :
    chartOn exampleLeavingState.value TooltipEvent.TIMECOMPLETE
      = some TooltipState.IDLE ∧
    (transition exampleLeavingState
      { type := TooltipEvent.TIMECOMPLETE, id := none }).g.value = TooltipState.IDLE :=
  ⟨by decide,
   (transition_effect_order exampleLeavingState
      { type := TooltipEvent.TIMECOMPLETE, id := none }
      TooltipState.IDLE (by decide)).2.2.2.1⟩

/-- Claim C3: from every LEAVING_VISIBLE state, MouseEnter or Focus
carrying instance B's id commits mode VISIBLE with activeId B, removes
the pending leaving callback (clearTimeout of the leaving handle; under
the timer invariant no leaving callback remains), allocates no new
timeout, and B's tooltip is visible at once. -/
theorem leavingVisible_rescue_instant :
    ∀ (g : GlobalState) (ty : TooltipEvent) (b : String),
      g.value = TooltipState.LEAVINGVISIBLE →
      (ty = TooltipEvent.MOUSEENTER ∨ ty = TooltipEvent.FOCUS) →
      (transition g { type := ty, id := some b }).changed = true ∧
      (transition g { type := ty, id := some b }).g.value = TooltipState.VISIBLE ∧
      (transition g { type := ty, id := some b }).g.context.id = some b ∧
      (transition g { type := ty, id := some b }).g.queue =
        clearTimeoutQ g.queue g.leavingVisibleTimer ∧
      (transition g { type := ty, id := some b }).g.nextHandle = g.nextHandle ∧
      (TimerInv g →
        (transition g { type := ty, id := some b }).g.queue.filter
          (fun s => s.kind == TimerKind.leaving) = []) ∧
      isTooltipVisible (transition g { type := ty, id := some b }).g b false = true := by
  intro g ty b hv hty
  have hred : transition g { type := ty, id := some b } =
      { g := { clearContextId (clearLeavingVisibleTimer g) with
                 value := TooltipState.VISIBLE, context := { id := some b } },
        changed := true,
        trace := [EffectCall.leaveCall TooltipState.LEAVINGVISIBLE g.context
          { type := ty, id := some b }] } := by
    rcases hty with rfl | rfl <;>
      simp [transition, chartOn, hv, runLeave, runEnter, mergeContext, hasLeave, hasEnter]
  refine ⟨by rw [hred], by rw [hred], by rw [hred], by rw [hred]; rfl, by rw [hred]; rfl,
    ?_, by rw [hred]; simp [isTooltipVisible]⟩
  intro hinv
  rw [hred]
  exact clearTimeoutQ_leaving_nil g hinv.2.2.1

/-- Claim C3 witness: at the concrete LEAVING_VISIBLE state with activeId
"a" and a pending leaving callback, MouseEnter from instance "b" shows
"b" at once: VISIBLE, activeId "b", leaving callback gone, no new
timeout. -/
theorem leavingVisible_rescue_instant_witness :
    exampleLeavingState.value = TooltipState.LEAVINGVISIBLE ∧
    (transition exampleLeavingState
      { type := TooltipEvent.MOUSEENTER, id := some "b" }).g.value
      = TooltipState.VISIBLE ∧
    (transition exampleLeavingState
      { type := TooltipEvent.MOUSEENTER, id := some "b" }).g.queue.filter
      (fun s => s.kind == TimerKind.leaving) = [] ∧
    isTooltipVisible (transition exampleLeavingState
      { type := TooltipEvent.MOUSEENTER, id := some "b" }).g "b" false = true :=
  ⟨by decide,
   (leavingVisible_rescue_instant exampleLeavingState TooltipEvent.MOUSEENTER "b"
      (by decide) (Or.inl rfl)).2.1,
   (leavingVisible_rescue_instant exampleLeavingState TooltipEvent.MOUSEENTER "b"
      (by decide) (Or.inl rfl)).2.2.2.2.2.1 (by unfold TimerInv; decide),
   (leavingVisible_rescue_instant exampleLeavingState TooltipEvent.MOUSEENTER "b"
      (by decide) (Or.inl rfl)).2.2.2.2.2.2⟩

/-- Claim C4: for every mode and every event whose trigger has no entry in
the current mode's transition row, `send` is a no-op: `transition` returns
the state unchanged with `changed` false and an empty action trace, and
`send` commits nothing and notifies nobody (second component false). -/
theorem unmapped_event_noop :
    ∀ (g : GlobalState) (e : MachineEvent),
      chartOn g.value e.type = none →
      transition g e = { g := g, changed := false, trace := [] } ∧
      send g e = (g, false) := by
  intro g e h
  have ht : transition g e = { g := g, changed := false, trace := [] } := by
    unfold transition
    rw [h]
  refine ⟨ht, ?_⟩
  unfold send
  rw [ht]
  simp

/-- Claim C4 witness: in the initial (Idle) state a MouseLeave has no
mapped transition and `send` leaves everything unchanged, notifying
nobody. -/
theorem unmapped_event_noop_witness :
    chartOn initialState.value TooltipEvent.MOUSELEAVE = none ∧
    send initialState { type := TooltipEvent.MOUSELEAVE, id := none }
      = (initialState, false) :=
  ⟨by decide,
   (unmapped_event_noop initialState { type := TooltipEvent.MOUSELEAVE, id := none }
      (by decide)).2⟩

/-- Claim C5, counterexample: a MouseLeave input on a NON-active instance
does change the global state.  After MouseEnter from "a" the machine is
Focused with activeId "a"; a MouseLeave arriving on instance "b" is
forwarded without any id guard and drives the machine to IDLE. -/
theorem mouseleave_nonactive_changes_state :
    exampleFocusedState.context.id = some "a" ∧
    (some "a" : Option String) ≠ some "b" ∧
    handleMouseLeave exampleFocusedState "b" ≠ exampleFocusedState := by
  refine ⟨by decide, by decide, by decide⟩

/-- Claim C5 (amended): a Blur (or MouseDown) input on an instance whose
id differs from activeId is suppressed by the handler guard and leaves
the global state unchanged; a MouseLeave input carries no id and is
forwarded regardless of which instance it arrives on, so it behaves
identically for every instance and can change the state. -/
theorem blur_guarded_mouseleave_unguarded :
    (∀ (g : GlobalState) (i : String), g.context.id ≠ some i → handleBlur g i = g) ∧
    (∀ (g : GlobalState) (i : String), g.context.id ≠ some i → handleMouseDown g i = g) ∧
    (∀ (g : GlobalState) (i j : String), handleMouseLeave g i = handleMouseLeave g j) := by
  refine ⟨?_, ?_, ?_⟩
  · intro g i h
    unfold handleBlur
    rw [if_neg]
    simpa using h
  · intro g i h
    unfold handleMouseDown
    rw [if_neg]
    simpa using h
  · intro g i j
    rfl

/-- Claim C5 (amended) witness: at the concrete Focused state with
activeId "a", a Blur and a MouseDown from the non-active instance "b" are
both no-ops. -/
theorem blur_guarded_mouseleave_unguarded_witness :
    exampleFocusedState.context.id ≠ some "b" ∧
    handleBlur exampleFocusedState "b" = exampleFocusedState ∧
    handleMouseDown exampleFocusedState "b" = exampleFocusedState :=
  ⟨by decide,
   blur_guarded_mouseleave_unguarded.1 exampleFocusedState "b" (by decide),
   blur_guarded_mouseleave_unguarded.2.1 exampleFocusedState "b" (by decide)⟩

/-- Claim C6: in every reachable state the timer discipline holds (each
timer owns at most one pending callback, always under its current
handle); and from any Focused state satisfying it, a MouseMove keeps the
mode Focused, cancels the pending rest callback and schedules exactly one
fresh one due a full REST_TIMEOUT after the current instant — so REST
(and hence Visible) cannot fire before the full rest delay has elapsed
since the last MouseMove. -/
theorem focused_mousemove_resets_rest_timer :
    (∀ g : GlobalState, Reachable g → TimerInv g) ∧
    (∀ (g : GlobalState) (i : String), TimerInv g →
      g.value = TooltipState.FOCUSED →
      (send g { type := TooltipEvent.MOUSEMOVE, id := some i }).1.value
        = TooltipState.FOCUSED ∧
      (send g { type := TooltipEvent.MOUSEMOVE, id := some i }).1.now = g.now ∧
      (send g { type := TooltipEvent.MOUSEMOVE, id := some i }).1.queue.filter
        (fun s => s.kind == TimerKind.rest) =
        [{ handle := g.nextHandle, fireAt := g.now + REST_TIMEOUT, kind := TimerKind.rest }] ∧
      (∀ s ∈ (send g { type := TooltipEvent.MOUSEMOVE, id := some i }).1.queue,
        s.kind = TimerKind.rest → ∀ d : Nat, d < REST_TIMEOUT →
          ¬ s.fireAt ≤ g.now + d) ∧
      TimerInv (send g { type := TooltipEvent.MOUSEMOVE, id := some i }).1) := by
  refine ⟨timerInv_reachable, ?_⟩
  intro g i hinv hv
  have hred : (send g { type := TooltipEvent.MOUSEMOVE, id := some i }).1 =
      { startRestTimer (clearRestTimer g) with
          value := TooltipState.FOCUSED, context := { id := some i } } := by
    simp [send, transition, chartOn, hv, runLeave, runEnter, mergeContext]
  have hq : (startRestTimer (clearRestTimer g)).queue =
      clearTimeoutQ (clearTimeoutQ g.queue g.restTimeout) g.restTimeout ++
        [⟨g.nextHandle, g.now + REST_TIMEOUT, TimerKind.rest⟩] := rfl
  have hrest2 : ∀ s ∈ (clearRestTimer g).queue, s.kind = TimerKind.rest →
      s.handle = (clearRestTimer g).restTimeout := by
    intro s hs hk
    exact hinv.2.1 s (List.mem_filter.mp hs).1 hk
  have hnil : ((clearTimeoutQ (clearTimeoutQ g.queue g.restTimeout) g.restTimeout).filter
      fun s => s.kind == TimerKind.rest) = [] :=
    clearTimeoutQ_rest_nil (clearRestTimer g) hrest2
  have hfil : (send g { type := TooltipEvent.MOUSEMOVE, id := some i }).1.queue.filter
      (fun s => s.kind == TimerKind.rest) =
      [{ handle := g.nextHandle, fireAt := g.now + REST_TIMEOUT, kind := TimerKind.rest }] := by
    rw [hred]
    show ((startRestTimer (clearRestTimer g)).queue.filter
      (fun s => s.kind == TimerKind.rest)) = _
    rw [hq, List.filter_append, hnil]
    rfl
  refine ⟨by rw [hred], by rw [hred]; rfl, hfil, ?_, ?_⟩
  · intro s hs hk d hd
    have hsmem : s ∈ (send g { type := TooltipEvent.MOUSEMOVE, id := some i }).1.queue.filter
        (fun s => s.kind == TimerKind.rest) :=
      List.mem_filter.mpr ⟨hs, by simp [hk]⟩
    rw [hfil] at hsmem
    simp only [List.mem_singleton] at hsmem
    subst hsmem
    simp only []
    omega
  · exact timerInv_send g _ hinv

/-- Claim C6 witness: after MouseEnter from "a" (a reachable Focused
state), a MouseMove from "a" keeps Focused and leaves exactly one pending
rest callback, due a full REST_TIMEOUT later. -/
theorem focused_mousemove_resets_rest_timer_witness :
    TimerInv exampleFocusedState ∧
    (send exampleFocusedState { type := TooltipEvent.MOUSEMOVE, id := some "a" }).1.value
      = TooltipState.FOCUSED ∧
    (send exampleFocusedState
      { type := TooltipEvent.MOUSEMOVE, id := some "a" }).1.queue.filter
      (fun s => s.kind == TimerKind.rest) =
      [{ handle := exampleFocusedState.nextHandle, fireAt := exampleFocusedState.now + REST_TIMEOUT, kind := TimerKind.rest }] :=
  ⟨focused_mousemove_resets_rest_timer.1 exampleFocusedState
     (Relation.ReflTransGen.single (Step.mouseEnter initialState "a")),
   (focused_mousemove_resets_rest_timer.2 exampleFocusedState "a"
     (focused_mousemove_resets_rest_timer.1 exampleFocusedState
       (Relation.ReflTransGen.single (Step.mouseEnter initialState "a")))
     (by decide)).1,
   (focused_mousemove_resets_rest_timer.2 exampleFocusedState "a"
     (focused_mousemove_resets_rest_timer.1 exampleFocusedState
       (Relation.ReflTransGen.single (Step.mouseEnter initialState "a")))
     (by decide)).2.2.1⟩

/-- Claim C7, counterexample: a subscriber that unregisters itself during
the notification pass causes the next subscriber — registered at commit
time — to be skipped: `notify` iterates with `forEach` over the live
array, so the removal shifts subscriber 2 to index 0 after index 0 has
been visited, and the pass ends having called only subscriber 1. -/
theorem removal_during_notify_skips_next :
    notifyPass [{ sid := 1, action := SubAction.removeSelf },
                { sid := 2, action := SubAction.idle }] =
      ([{ sid := 2, action := SubAction.idle }], [1]) ∧
    (2 : Nat) ∉ ([1] : List Nat) := by
  refine ⟨by decide, by decide⟩

/-- Claim C7 (amended): after each committed transition the notification
pass runs synchronously over the live subscriber array in registration
order; when no subscriber mutates the subscription list during the pass,
every subscriber registered at commit time is called exactly once, in
registration order; but `notify` iterates the live array with no
defensive copy, so a subscriber that removes an entry at or before its
own index shifts the array and causes the next subscriber to be skipped
(iteration itself never crashes). -/
theorem notify_in_order_when_no_mutation :
    ∀ subs : List Subscriber, (∀ s ∈ subs, s.action = SubAction.idle) →
      notifyPass subs = (subs, subs.map Subscriber.sid) := by
  intro subs hall
  unfold notifyPass
  rw [notifyGo_no_mutation subs.length 0 subs [] (by omega) hall]
  simp

/-- Claim C7 (amended) witness: two passive subscribers are both notified,
in registration order. -/
theorem notify_in_order_when_no_mutation_witness :
    notifyPass [{ sid := 5, action := SubAction.idle },
                { sid := 7, action := SubAction.idle }] =
      ([{ sid := 5, action := SubAction.idle },
        { sid := 7, action := SubAction.idle }], [5, 7]) :=
  notify_in_order_when_no_mutation
    [{ sid := 5, action := SubAction.idle }, { sid := 7, action := SubAction.idle }]
    (by decide)

/-- Claim C8: with no edge collision, the popup is placed below the
trigger with no flip: left is the trigger's left plus the horizontal
scroll offset and top is the trigger's top plus offset plus trigger
height plus the vertical scroll offset; with a right-edge collision and
no left-edge collision, left is the trigger's right edge minus the popup
width plus the horizontal scroll offset. -/
theorem positionTooltip_no_collision_and_right_flip :
    ∀ (env : Env) (tr tt : Rect) (offset : Int),
      (¬ (tr.top - tt.height < 0) → ¬ (env.windowWidth < tr.left + tt.width) →
       ¬ (env.windowHeight < tr.bottom + tt.height + offset) →
       ¬ (tr.left - tt.width < 0) →
       positionTooltip env (some tr) (some tt) offset =
         { left := some (tr.left + env.pageXOffset),
           top := some (tr.top + offset + tr.height + env.pageYOffset),
           visibilityHidden := false }) ∧
      ((env.windowWidth < tr.left + tt.width) → ¬ (tr.left - tt.width < 0) →
       (positionTooltip env (some tr) (some tt) offset).left =
         some (tr.right - tt.width + env.pageXOffset)) := by
  intro env tr tt offset
  constructor
  · intro h1 h2 h3 h4
    simp only [positionTooltip, decide_eq_false h2, decide_eq_false h3]
    simp
  · intro h5 h6
    simp only [positionTooltip, decide_eq_true h5, decide_eq_false h6]
    simp

/-- Claim C8 witness: a pair with no collision is placed below the
trigger, and a pair forced into a right-edge collision without a
left-edge collision is flipped to the trigger's right edge minus the
popup width. -/
theorem positionTooltip_no_collision_and_right_flip_witness :
    positionTooltip { windowWidth := 1000, windowHeight := 1000, pageXOffset := 3, pageYOffset := 5 }
      (some { width := 50, height := 20, top := 100, left := 100, right := 150, bottom := 120 })
      (some { width := 60, height := 30, top := 0, left := 0, right := 0, bottom := 0 }) 8 =
      { left := some 103, top := some 133, visibilityHidden := false } ∧
    (positionTooltip { windowWidth := 100, windowHeight := 1000, pageXOffset := 3, pageYOffset := 5 }
      (some { width := 50, height := 20, top := 100, left := 80, right := 130, bottom := 120 })
      (some { width := 60, height := 30, top := 0, left := 0, right := 0, bottom := 0 }) 8).left = some 73 := by
  constructor
  · have h := (positionTooltip_no_collision_and_right_flip
      { windowWidth := 1000, windowHeight := 1000, pageXOffset := 3, pageYOffset := 5 }
      { width := 50, height := 20, top := 100, left := 100, right := 150, bottom := 120 }
      { width := 60, height := 30, top := 0, left := 0, right := 0, bottom := 0 }
      8).1 (by decide) (by decide) (by decide) (by decide)
    rw [h]
    decide
  · have h := (positionTooltip_no_collision_and_right_flip
      { windowWidth := 100, windowHeight := 1000, pageXOffset := 3, pageYOffset := 5 }
      { width := 50, height := 20, top := 100, left := 80, right := 130, bottom := 120 }
      { width := 60, height := 30, top := 0, left := 0, right := 0, bottom := 0 }
      8).2 (by decide) (by decide)
    rw [h]
    decide

/-- Claim C9: while the popup rectangle is unmeasured, `getStyles`
returns exactly the hidden style without consulting the position function
at all (it holds for every position function); and `positionTooltip`
returns the empty style object — no partial coordinates — whenever either
rectangle is absent. -/
theorem getStyles_hidden_and_position_empty :
    (∀ (position : Option Rect → Option Rect → PosStyle) (tr : Option Rect),
      getStyles position tr none = hiddenStyle) ∧
    (∀ (env : Env) (tr tt : Option Rect) (offset : Int),
      tr = none ∨ tt = none → positionTooltip env tr tt offset = emptyStyle) := by
  constructor
  · intro position tr
    rfl
  · intro env tr tt offset h
    rcases h with rfl | rfl
    · cases tt <;> rfl
    · cases tr <;> rfl

/-- Claim C9 witness: with the popup rectangle absent, `getStyles` (for a
concrete position function) yields the hidden style, and
`positionTooltip` yields the empty style. -/
theorem getStyles_hidden_and_position_empty_witness :
    getStyles (fun _ _ => emptyStyle) none none = hiddenStyle ∧
    positionTooltip { windowWidth := 1000, windowHeight := 1000, pageXOffset := 0, pageYOffset := 0 } none none 8 = emptyStyle :=
  ⟨getStyles_hidden_and_position_empty.1 (fun _ _ => emptyStyle) none,
   getStyles_hidden_and_position_empty.2
     { windowWidth := 1000, windowHeight := 1000, pageXOffset := 0, pageYOffset := 0 }
     none none 8 (Or.inl rfl)⟩

/-- Claim C10: a mapped event that carries no id payload commits an
activeId equal to the pre-transition one, except that the leave action of
an exited LEAVING_VISIBLE or DISMISSED clears it; in particular every
Visible-to-LeavingVisible transition (MouseLeave, Blur or
GlobalMouseMove) preserves activeId, so the active instance's
`isTooltipVisible` stays true throughout the grace period. -/
theorem idless_event_preserves_activeId :
    (∀ (g : GlobalState) (e : MachineEvent) (t : TooltipState), e.id = none →
      chartOn g.value e.type = some t →
      (transition g e).g.context.id =
        (if g.value = TooltipState.LEAVINGVISIBLE ∨ g.value = TooltipState.DISMISSED
         then none else g.context.id)) ∧
    (∀ (g : GlobalState) (ty : TooltipEvent), g.value = TooltipState.VISIBLE →
      (ty = TooltipEvent.MOUSELEAVE ∨ ty = TooltipEvent.BLUR ∨
        ty = TooltipEvent.GLOBALMOUSEMOVE) →
      (transition g { type := ty, id := none }).g.value = TooltipState.LEAVINGVISIBLE ∧
      (transition g { type := ty, id := none }).g.context.id = g.context.id ∧
      (∀ a : String, g.context.id = some a →
        isTooltipVisible (transition g { type := ty, id := none }).g a false = true)) := by
  constructor
  · intro g e t he hc
    unfold transition
    rw [hc]
    simp only [mergeContext, he]
    cases hv : g.value <;>
      simp [runLeave, clearRestTimer, clearContextId, clearLeavingVisibleTimer]
  · intro g ty hv hty
    have hred : (transition g { type := ty, id := none }).g.value
          = TooltipState.LEAVINGVISIBLE ∧
        (transition g { type := ty, id := none }).g.context.id = g.context.id := by
      rcases hty with rfl | rfl | rfl <;>
        simp [transition, chartOn, hv, runLeave, runEnter, mergeContext,
          startLeavingVisibleTimer]
    refine ⟨hred.1, hred.2, ?_⟩
    intro a ha
    simp [isTooltipVisible, hred.1, hred.2, ha]

/-- Claim C10 witness: at a concrete VISIBLE state with activeId "a", a
Blur commits LEAVING_VISIBLE with activeId still "a" and "a" remains
visible. -/
theorem idless_event_preserves_activeId_witness :
    (transition exampleVisibleState
      { type := TooltipEvent.BLUR, id := none }).g.value
      = TooltipState.LEAVINGVISIBLE ∧
    (transition exampleVisibleState
      { type := TooltipEvent.BLUR, id := none }).g.context.id = some "a" :=
  ⟨(idless_event_preserves_activeId.2 exampleVisibleState TooltipEvent.BLUR
      (by decide) (Or.inr (Or.inl rfl))).1,
   (idless_event_preserves_activeId.2 exampleVisibleState TooltipEvent.BLUR
      (by decide) (Or.inr (Or.inl rfl))).2.1⟩

end ReactLitTooltip
